import Mathlib

/-!
Verification of the `pymesos/interface.py` module: a shallow embedding of
its module-level data (the `__all__` export tuple, the class hierarchy and
the method tables) and of the behaviour of the method bodies, every one of
which is either empty (a bare docstring, so the call returns `None` with no
effect) or the default error handler that prints one line to `stderr`.

The repository contains no driver implementation: `interface.py` only
declares the driver API.  Claims about runtime driver behaviour (lifecycle
gating, the acknowledgement ledger, the outbound dispatcher, the operator
mark-agent-gone call) are settled against models built from the spec; those
definitions are marked `Modelled from the spec:`.
-/

/-- A Python runtime value, as far as the module's method bodies need:
every body returns `None`; the error handlers format a message value. -/
inductive PyVal : Type
  | pyNone : PyVal
  | pyStr : String → PyVal
deriving DecidableEq

/-- The string Python interpolates for a value under the `%s` conversion. -/
def pyStrOf : PyVal → String
  | PyVal.pyNone => "None"
  | PyVal.pyStr s => s

/-- Python `%`-formatting of a format string with a single `%s` against one
value, as used by `"Error from Mesos: %s " % message`. -/
def pyFormat (fmt : String) (v : PyVal) : String :=
  fmt.replace "%s" (pyStrOf v)

/-- Observable outcome of calling one method: the lines it printed to
`sys.stderr` and its return value. -/
structure MethodResult : Type where
  stderr : List String
  ret : PyVal
deriving DecidableEq

/-- The body of a method of `interface.py`.  Every method in the module is
either a bare docstring (`empty`) or the default error handler, which prints
`fmt % message` to `sys.stderr` (`printError fmt`). -/
inductive Body : Type
  | empty : Body
  | printError : String → Body
deriving DecidableEq

/-- Run a method body on its argument list (the arguments after `self`).
An empty body returns `None` and prints nothing.  The error handler's
signature is `(self, driver, message)`, so `message` is argument index 1. -/
def runBody : Body → List PyVal → MethodResult
  | Body.empty, _ => ⟨[], PyVal.pyNone⟩
  | Body.printError fmt, args => ⟨[pyFormat fmt (args.getD 1 PyVal.pyNone)], PyVal.pyNone⟩

/-- A class of `interface.py`: its name, its base class (`none` for
`object`) and its directly defined methods in source order. -/
structure PyClass : Type where
  cname : String
  base : Option String
  methods : List (String × Body)
deriving DecidableEq

/-- `class Scheduler(object)`, lines 37-172. -/
def schedulerClass : PyClass :=
  { cname := "Scheduler"
    base := none
    methods :=
      [ ("registered", Body.empty)
      , ("reregistered", Body.empty)
      , ("disconnected", Body.empty)
      , ("processHeartBeat", Body.empty)
      , ("resourceOffers", Body.empty)
      , ("inverseOffers", Body.empty)
      , ("offerRescinded", Body.empty)
      , ("inverseOfferRescinded", Body.empty)
      , ("statusUpdate", Body.empty)
      , ("operationStatusUpdate", Body.empty)
      , ("frameworkMessage", Body.empty)
      , ("slaveLost", Body.empty)
      , ("executorLost", Body.empty)
      , ("error", Body.printError "Error from Mesos: %s ")
      ] }

/-- `class SchedulerDriver(object)`, lines 175-336. -/
def schedulerDriverClass : PyClass :=
  { cname := "SchedulerDriver"
    base := none
    methods :=
      [ ("start", Body.empty)
      , ("stop", Body.empty)
      , ("abort", Body.empty)
      , ("join", Body.empty)
      , ("run", Body.empty)
      , ("requestResources", Body.empty)
      , ("launchTasks", Body.empty)
      , ("killTask", Body.empty)
      , ("acceptOffers", Body.empty)
      , ("acceptInverseOffers", Body.empty)
      , ("declineOffer", Body.empty)
      , ("declineInverseOffer", Body.empty)
      , ("reviveOffers", Body.empty)
      , ("suppressOffers", Body.empty)
      , ("acknowledgeStatusUpdate", Body.empty)
      , ("acknowledgeOperationStatusUpdate", Body.empty)
      , ("sendFrameworkMessage", Body.empty)
      , ("reconcileTasks", Body.empty)
      ] }

/-- `class Executor(object)`, lines 338-411. -/
def executorClass : PyClass :=
  { cname := "Executor"
    base := none
    methods :=
      [ ("registered", Body.empty)
      , ("reregistered", Body.empty)
      , ("disconnected", Body.empty)
      , ("launchTask", Body.empty)
      , ("launchTaskGroup", Body.empty)
      , ("killTask", Body.empty)
      , ("frameworkMessage", Body.empty)
      , ("shutdown", Body.empty)
      , ("error", Body.printError "Error from Mesos: %s")
      ] }

/-- `class ExecutorDriver(object)`, lines 415-468. -/
def executorDriverClass : PyClass :=
  { cname := "ExecutorDriver"
    base := none
    methods :=
      [ ("start", Body.empty)
      , ("stop", Body.empty)
      , ("abort", Body.empty)
      , ("join", Body.empty)
      , ("run", Body.empty)
      , ("sendStatusUpdate", Body.empty)
      , ("sendFrameworkMessage", Body.empty)
      ] }

/-- `class OperatorDaemonDriver(object)`, lines 471-539. -/
def operatorDaemonDriverClass : PyClass :=
  { cname := "OperatorDaemonDriver"
    base := none
    methods :=
      [ ("getHealth", Body.empty)
      , ("getFlags", Body.empty)
      , ("getVersion", Body.empty)
      , ("getMetrics", Body.empty)
      , ("getLoggingLevel", Body.empty)
      , ("setLoggingLevel", Body.empty)
      , ("listFiles", Body.empty)
      , ("readFile", Body.empty)
      , ("getState", Body.empty)
      , ("getFrameworks", Body.empty)
      , ("getExecutors", Body.empty)
      , ("getTasks", Body.empty)
      ] }

/-- `class OperatorMasterDriver(OperatorDaemonDriver)`, lines 542-680. -/
def operatorMasterDriverClass : PyClass :=
  { cname := "OperatorMasterDriver"
    base := some "OperatorDaemonDriver"
    methods :=
      [ ("start", Body.empty)
      , ("stop", Body.empty)
      , ("abort", Body.empty)
      , ("join", Body.empty)
      , ("run", Body.empty)
      , ("getAgents", Body.empty)
      , ("getRoles", Body.empty)
      , ("getWeights", Body.empty)
      , ("updateWeights", Body.empty)
      , ("getMaster", Body.empty)
      , ("reserveResources", Body.empty)
      , ("unreserveResources", Body.empty)
      , ("createVolumes", Body.empty)
      , ("destroyVolumes", Body.empty)
      , ("getMaintenanceStatus", Body.empty)
      , ("getMaintenanceSchedule", Body.empty)
      , ("updateMaintenanceSchedule", Body.empty)
      , ("startMaintenance", Body.empty)
      , ("stopMaintenance", Body.empty)
      , ("getQuota", Body.empty)
      , ("setQuota", Body.empty)
      , ("removeQuota", Body.empty)
      , ("markAgentGone", Body.empty)
      ] }

/-- `class OperatorMaster(object)`, lines 682-738 (the commented-out
`heartbeat` is not a method). -/
def operatorMasterClass : PyClass :=
  { cname := "OperatorMaster"
    base := none
    methods :=
      [ ("taskAdded", Body.empty)
      , ("taskUpdated", Body.empty)
      , ("frameworkAdded", Body.empty)
      , ("frameworkUpdated", Body.empty)
      , ("frameworkRemoved", Body.empty)
      , ("agentAdded", Body.empty)
      , ("agentRemoved", Body.empty)
      ] }

/-- `class OperatorAgentDriver(OperatorDaemonDriver)`, lines 740-838. -/
def operatorAgentDriverClass : PyClass :=
  { cname := "OperatorAgentDriver"
    base := some "OperatorDaemonDriver"
    methods :=
      [ ("getContainers", Body.empty)
      , ("launchNestedContainer", Body.empty)
      , ("waitNestedContainer", Body.empty)
      , ("killNestedContainer", Body.empty)
      , ("launchNestedContainerSession", Body.empty)
      , ("attachContainerInput", Body.empty)
      , ("attachContainerOutput", Body.empty)
      , ("removeNestedContainer", Body.empty)
      , ("addResourceProviderConfig", Body.empty)
      , ("updateResourceProviderConfig", Body.empty)
      , ("removeResourceProviderConfig", Body.empty)
      , ("pruneImages", Body.empty)
      ] }

/-- All classes defined by the module, in source order. -/
def moduleClasses : List PyClass :=
  [ schedulerClass
  , schedulerDriverClass
  , executorClass
  , executorDriverClass
  , operatorDaemonDriverClass
  , operatorMasterDriverClass
  , operatorMasterClass
  , operatorAgentDriverClass
  ]

/-- The module's `__all__` tuple, lines 27-35.  The entry
`'OperatorMasterDriver' 'OperatorMaster'` has no comma between the two
literals, and Python concatenates juxtaposed string literals, so the tuple
holds the single string written here with `++`. -/
def dunderAll : List String :=
  [ "Executor"
  , "ExecutorDriver"
  , "Scheduler"
  , "SchedulerDriver"
  , "OperatorMasterDriver" ++ "OperatorMaster"
  , "OperatorAgentDriver"
  ]

/-- Find the class of the module with the given name. -/
def findClass (n : String) : Option PyClass :=
  moduleClasses.find? (fun c => c.cname = n)

/-- Resolve a method name on a class, walking the inheritance chain, with
fuel bounding the chain length. -/
def resolveBodyAux : Nat → String → String → Option Body
  | 0, _, _ => none
  | fuel + 1, cn, mn =>
    match findClass cn with
    | none => none
    | some c =>
      match c.methods.find? (fun p => p.1 = mn) with
      | some p => some p.2
      | none =>
        match c.base with
        | none => none
        | some b => resolveBodyAux fuel b mn

/-- Resolve a method name on a class of the module, as Python attribute
lookup does through base classes. -/
def resolveBody (cn mn : String) : Option Body :=
  resolveBodyAux moduleClasses.length cn mn

/-- Whether a class of the module provides a method, directly or by
inheritance. -/
def providesMethod (cn mn : String) : Bool :=
  (resolveBody cn mn).isSome

/-- The two methods of the module whose body is not empty. -/
def isErrorHandler (cn mn : String) : Bool :=
  (cn = "Scheduler" && mn = "error") || (cn = "Executor" && mn = "error")

namespace SpecModel

/-- Modelled from the spec: the driver lifecycle states of section 4.1
(`Unstarted → Running → {Stopped, Aborted}`).  The repository declares the
driver API in `interface.py` but contains no driver implementation. -/
inductive Lifecycle : Type
  | Unstarted : Lifecycle
  | Running : Lifecycle
  | Stopped : Lifecycle
  | Aborted : Lifecycle
deriving DecidableEq

/-- Modelled from the spec: the reported conditions with which driver
operations fail deterministically (section 7, usage/contract violations). -/
inductive DriverError : Type
  | notRunning : DriverError
  | alreadyStarted : DriverError
  | aborted : DriverError
  | fatalUsage : DriverError
deriving DecidableEq

/-- Modelled from the spec: one outbound call handed to the dispatcher
queue (section 4.4).  Offer ids, task infos and status ids are opaque and
represented by naturals. -/
inductive Call : Type
  | launch : List Nat → List Nat → Call
  | decline : Nat → Call
  | kill : Nat → Call
  | ack : Nat → Call
deriving DecidableEq

/-- Modelled from the spec: the driver state of section 3 — lifecycle
state, the acknowledgement mode chosen at construction, the tracked offers
(section 4.2), the pending-acknowledgement ledger (section 4.3) and the
outbound dispatcher queue (section 4.4).  The implementation is absent from
the repository. -/
structure Driver : Type where
  lifecycle : Lifecycle
  implicitAcks : Bool
  offers : List Nat
  ledger : List Nat
  outQueue : List Call
deriving DecidableEq

/-- Modelled from the spec: `start()` is the only legal transition out of
Unstarted and fails if called twice (section 4.1). -/
def start (d : Driver) : Except DriverError Driver :=
  if d.lifecycle = Lifecycle.Unstarted then
    Except.ok { d with lifecycle := Lifecycle.Running }
  else Except.error DriverError.alreadyStarted

/-- Modelled from the spec: `stop(failover)` transitions Running to
Stopped (section 4.1); the failover flag only changes what external
collaborators do with the framework's executors and tasks. -/
def stop (d : Driver) (failover : Bool) : Except DriverError Driver :=
  if d.lifecycle = Lifecycle.Running then
    Except.ok { d with lifecycle := Lifecycle.Stopped }
  else Except.error DriverError.notRunning

/-- Modelled from the spec: `abort()` transitions Running to Aborted
immediately, unconditionally blocking further outbound calls and further
callback delivery (section 4.1). -/
def abort (d : Driver) : Except DriverError Driver :=
  if d.lifecycle = Lifecycle.Running then
    Except.ok { d with lifecycle := Lifecycle.Aborted }
  else Except.error DriverError.notRunning

/-- Modelled from the spec: `declineOffer` consumes the offer and hands
exactly one decline call to the outbound queue (sections 4.2 and 4.4);
after Aborted it fails fast (section 4.1). -/
def declineOffer (d : Driver) (offerId : Nat) : Except DriverError Driver :=
  if d.lifecycle = Lifecycle.Aborted then Except.error DriverError.aborted
  else
    Except.ok { d with offers := d.offers.erase offerId,
                       outQueue := d.outQueue ++ [Call.decline offerId] }

/-- Modelled from the spec: `launchTasks` consumes the named offers; an
empty task list declines all named offers in their entirety (section 4.2,
and the docstring of `SchedulerDriver.launchTasks`), otherwise one launch
call goes to the outbound queue; after Aborted it fails fast. -/
def launchTasks (d : Driver) (offerIds : List Nat) (tasks : List Nat) :
    Except DriverError Driver :=
  if d.lifecycle = Lifecycle.Aborted then Except.error DriverError.aborted
  else if tasks.isEmpty then
    Except.ok { d with offers := offerIds.foldl List.erase d.offers,
                       outQueue := d.outQueue ++ offerIds.map Call.decline }
  else
    Except.ok { d with offers := offerIds.foldl List.erase d.offers,
                       outQueue := d.outQueue ++ [Call.launch offerIds tasks] }

/-- Modelled from the spec: `killTask` hands exactly one best-effort kill
call to the outbound queue (section 4.4); after Aborted it fails fast. -/
def killTask (d : Driver) (taskId : Nat) : Except DriverError Driver :=
  if d.lifecycle = Lifecycle.Aborted then Except.error DriverError.aborted
  else Except.ok { d with outQueue := d.outQueue ++ [Call.kill taskId] }

/-- Modelled from the spec: `acknowledgeStatusUpdate` (section 4.3).
Under implicit-acknowledgement mode the call is a fatal usage error (the
docstring says it causes the driver to crash).  Under explicit mode it
removes the matching ledger entry and sends one acknowledgement;
acknowledging an entry that is not present is an idempotent no-op. -/
def acknowledgeStatusUpdate (d : Driver) (status : Nat) :
    Except DriverError Driver :=
  if d.implicitAcks then Except.error DriverError.fatalUsage
  else if d.lifecycle = Lifecycle.Aborted then Except.error DriverError.aborted
  else if status ∈ d.ledger then
    Except.ok { d with ledger := d.ledger.erase status,
                       outQueue := d.outQueue ++ [Call.ack status] }
  else Except.ok d

/-- Modelled from the spec: delivery of a task status update to the
driver (section 4.3).  Under explicit-acknowledgement mode the ledger
records the delivered update; the ledger is resilient to duplicate
delivery; nothing is delivered after Aborted. -/
def deliverStatusUpdate (d : Driver) (status : Nat) : Driver :=
  if d.lifecycle = Lifecycle.Aborted then d
  else if d.implicitAcks then d
  else if status ∈ d.ledger then d
  else { d with ledger := d.ledger ++ [status] }

/-- Modelled from the spec: an inbound event from the master (sections 5
and 7).  The fatal error event carries a message. -/
inductive Event : Type
  | statusUpdate : Nat → Event
  | offerRescinded : Nat → Event
  | errorEvent : String → Event
deriving DecidableEq

/-- Modelled from the spec: one user callback invocation, recording which
callback fired and the driver lifecycle state at the moment it fired. -/
structure CallbackCall : Type where
  cbName : String
  lifecycleAtCall : Lifecycle
deriving DecidableEq

/-- Modelled from the spec: serial processing of one inbound event
(section 5).  No callback is delivered on an aborted driver; a fatal error
moves the driver to Aborted BEFORE the error callback fires (section 7 and
the docstrings of `Scheduler.error` and `Executor.error`). -/
def processEvent (d : Driver) (e : Event) : Driver × List CallbackCall :=
  if d.lifecycle = Lifecycle.Aborted then (d, [])
  else
    match e with
    | Event.statusUpdate u =>
        (deliverStatusUpdate d u, [⟨"statusUpdate", d.lifecycle⟩])
    | Event.offerRescinded i =>
        ({ d with offers := d.offers.erase i }, [⟨"offerRescinded", d.lifecycle⟩])
    | Event.errorEvent _ =>
        ({ d with lifecycle := Lifecycle.Aborted },
         [⟨"error", Lifecycle.Aborted⟩])

/-- Modelled from the spec: the master-side state the operator API acts
on — the registered agents, the agents asserted gone, and the log of
TASK_GONE_BY_OPERATOR notifications sent (section 6; the
`markAgentGone` docstring). -/
structure MasterState : Type where
  agents : List Nat
  goneAgents : List Nat
  goneUpdatesSent : List Nat
deriving DecidableEq

/-- Modelled from the spec: `OperatorMasterDriver.markAgentGone` asserts
an agent is never coming back: the master removes it, records it gone and
sends TASK_GONE_BY_OPERATOR updates; the docstring states the call is
idempotent, so an agent already marked gone is left untouched. -/
def markAgentGone (m : MasterState) (agentId : Nat) : MasterState :=
  if agentId ∈ m.goneAgents then m
  else { agents := m.agents.erase agentId,
         goneAgents := m.goneAgents ++ [agentId],
         goneUpdatesSent := m.goneUpdatesSent ++ [agentId] }

/-- A concrete running driver used by the witnesses below. -/
def exRunning : Driver :=
  { lifecycle := Lifecycle.Running
    implicitAcks := true
    offers := [7, 8]
    ledger := []
    outQueue := [] }

/-- `exRunning` after `abort`. -/
def exAborted : Driver :=
  { lifecycle := Lifecycle.Aborted
    implicitAcks := true
    offers := [7, 8]
    ledger := []
    outQueue := [] }

/-- A concrete explicit-acknowledgement running driver used by the
witnesses below. -/
def exExplicit : Driver :=
  { lifecycle := Lifecycle.Running
    implicitAcks := false
    offers := [7, 8]
    ledger := [5]
    outQueue := [] }

end SpecModel

/-- Sequential composition of two method calls: the printed lines
accumulate and the value of the sequence is the second call's return. -/
def seqResult (r1 r2 : MethodResult) : MethodResult :=
  ⟨r1.stderr ++ r2.stderr, r2.ret⟩

open SpecModel

/-- C1: for every class in the module and every method of it other than
`Scheduler.error` and `Executor.error`, calling the method with any
arguments returns `None` and has no observable effect; the only non-empty
defaults are the two error handlers, which print the message to `stderr`
and return `None`. -/
theorem c1_default_methods_noop_except_error_handlers :
    ∀ c ∈ moduleClasses, ∀ p ∈ c.methods, ∀ args : List PyVal,
      (runBody p.2 args).ret = PyVal.pyNone ∧
      (isErrorHandler c.cname p.1 = false → runBody p.2 args = ⟨[], PyVal.pyNone⟩) ∧
      (isErrorHandler c.cname p.1 = true →
        ∃ fmt : String, p.2 = Body.printError fmt ∧
          (runBody p.2 args).stderr = [pyFormat fmt (args.getD 1 PyVal.pyNone)]) := by
  have key : ∀ c ∈ moduleClasses, ∀ p ∈ c.methods,
      (p.2 = Body.empty) ↔ (isErrorHandler c.cname p.1 = false) := by decide
  intro c hc p hp args
  have hkey := key c hc p hp
  refine ⟨?_, ?_, ?_⟩
  · cases p.2 <;> rfl
  · intro hne
    rw [hkey.mpr hne]
    rfl
  · intro he
    cases hb : p.2 with
    | empty => exact absurd (hkey.mp hb) (by simp [he])
    | printError fmt => exact ⟨fmt, rfl, rfl⟩

/-- Witness for C1, at the method `Scheduler.error` called with a driver
and the message string `boom`. -/
theorem c1_default_methods_noop_except_error_handlers_witness :
    (schedulerClass ∈ moduleClasses ∧
     ("error", Body.printError "Error from Mesos: %s ") ∈ schedulerClass.methods) ∧
    ((runBody (Body.printError "Error from Mesos: %s ")
        [PyVal.pyNone, PyVal.pyStr "boom"]).ret = PyVal.pyNone ∧
     (isErrorHandler schedulerClass.cname "error" = false →
       runBody (Body.printError "Error from Mesos: %s ")
         [PyVal.pyNone, PyVal.pyStr "boom"] = ⟨[], PyVal.pyNone⟩) ∧
     (isErrorHandler schedulerClass.cname "error" = true →
       ∃ fmt : String, Body.printError "Error from Mesos: %s " = Body.printError fmt ∧
         (runBody (Body.printError "Error from Mesos: %s ")
           [PyVal.pyNone, PyVal.pyStr "boom"]).stderr =
           [pyFormat fmt ([PyVal.pyNone, PyVal.pyStr "boom"].getD 1 PyVal.pyNone)])) :=
  ⟨⟨by decide, by decide⟩,
    c1_default_methods_noop_except_error_handlers schedulerClass (by decide)
      ("error", Body.printError "Error from Mesos: %s ") (by decide)
      [PyVal.pyNone, PyVal.pyStr "boom"]⟩

/-- Counterexample to C2 as stated: the driver variant
`OperatorAgentDriver` provides none of `start`, `stop`, `abort`, `join`,
neither directly nor through its only base `OperatorDaemonDriver`. -/
theorem c2_counterexample_operator_agent_driver_lacks_lifecycle :
    providesMethod "OperatorAgentDriver" "start" = false ∧
    providesMethod "OperatorAgentDriver" "stop" = false ∧
    providesMethod "OperatorAgentDriver" "abort" = false ∧
    providesMethod "OperatorAgentDriver" "join" = false := by
  decide

/-- C2 (amended): `SchedulerDriver`, `ExecutorDriver` and
`OperatorMasterDriver` each provide the lifecycle operations `start`,
`stop`, `abort` and `join`; `OperatorAgentDriver` provides none of them. -/
theorem c2_amended_lifecycle_methods_per_class :
    (["SchedulerDriver", "ExecutorDriver", "OperatorMasterDriver"].all
      (fun cn => ["start", "stop", "abort", "join"].all
        (fun mn => providesMethod cn mn))) = true ∧
    (["start", "stop", "abort", "join"].any
      (fun mn => providesMethod "OperatorAgentDriver" mn)) = false := by
  decide

/-- C3: for each driver class that defines `run` (`SchedulerDriver`,
`ExecutorDriver`, `OperatorMasterDriver`), calling `run()` is behaviorally
equivalent to calling `start()` and then `join()`, in result and in
effect: all three bodies are empty in the source, so both sides print
nothing and return `None`. -/
theorem c3_run_equals_start_then_join (cn : String)
    (hcn : cn ∈ ["SchedulerDriver", "ExecutorDriver", "OperatorMasterDriver"])
    (args : List PyVal) :
    ∃ br bs bj : Body,
      resolveBody cn "run" = some br ∧
      resolveBody cn "start" = some bs ∧
      resolveBody cn "join" = some bj ∧
      runBody br args = seqResult (runBody bs args) (runBody bj args) := by
  fin_cases hcn <;>
    exact ⟨Body.empty, Body.empty, Body.empty, by decide, by decide, by decide, rfl⟩

/-- Witness for C3 at `SchedulerDriver` with no arguments. -/
theorem c3_run_equals_start_then_join_witness :
    ("SchedulerDriver" ∈ ["SchedulerDriver", "ExecutorDriver", "OperatorMasterDriver"]) ∧
    (∃ br bs bj : Body,
      resolveBody "SchedulerDriver" "run" = some br ∧
      resolveBody "SchedulerDriver" "start" = some bs ∧
      resolveBody "SchedulerDriver" "join" = some bj ∧
      runBody br [] = seqResult (runBody bs []) (runBody bj [])) :=
  ⟨by decide, c3_run_equals_start_then_join "SchedulerDriver" (by decide) []⟩

/-- C4: after `abort()` has been returned successfully, every subsequent
outbound operational call (`launchTasks`, `killTask`, `declineOffer`)
fails deterministically with the reported `aborted` condition; since the
call produces no successor state, nothing reaches the outbound queue. -/
theorem c4_outbound_calls_fail_after_abort (d0 d : Driver)
    (h : SpecModel.abort d0 = Except.ok d)
    (offerIds tasks : List Nat) (taskId offerId : Nat) :
    launchTasks d offerIds tasks = Except.error DriverError.aborted ∧
    killTask d taskId = Except.error DriverError.aborted ∧
    declineOffer d offerId = Except.error DriverError.aborted := by
  have hd : d.lifecycle = Lifecycle.Aborted := by
    unfold SpecModel.abort at h
    split at h
    · cases h
      rfl
    · exact Except.noConfusion h
  exact ⟨by simp [launchTasks, hd], by simp [killTask, hd], by simp [declineOffer, hd]⟩

/-- Witness for C4: a concrete running driver is aborted, after which
`launchTasks`, `killTask` and `declineOffer` all report `aborted`. -/
theorem c4_outbound_calls_fail_after_abort_witness :
    SpecModel.abort exRunning = Except.ok exAborted ∧
    (launchTasks exAborted [7] [1] = Except.error DriverError.aborted ∧
     killTask exAborted 3 = Except.error DriverError.aborted ∧
     declineOffer exAborted 7 = Except.error DriverError.aborted) :=
  ⟨rfl, c4_outbound_calls_fail_after_abort exRunning exAborted rfl [7] [1] 3 7⟩

/-- C5: on a non-aborted driver, calling `launchTasks` with an empty task
collection and any list of offer ids is behaviorally identical to calling
`declineOffer` on each of those offer ids in turn. -/
theorem c5_launch_empty_tasks_equals_decline_each (d : Driver)
    (h : d.lifecycle ≠ Lifecycle.Aborted) (offerIds : List Nat) :
    launchTasks d offerIds [] = List.foldlM declineOffer d offerIds := by
  revert d
  induction offerIds with
  | nil =>
      intro d h
      simp [launchTasks, h, List.foldlM]
      rfl
  | cons i rest ih =>
      intro d h
      have h1 : declineOffer d i = Except.ok
          { d with offers := d.offers.erase i,
                   outQueue := d.outQueue ++ [Call.decline i] } := by
        simp [declineOffer, h]
      rw [List.foldlM_cons, h1]
      show launchTasks d (i :: rest) [] =
        List.foldlM declineOffer
          { d with offers := d.offers.erase i,
                   outQueue := d.outQueue ++ [Call.decline i] } rest
      rw [← ih { d with offers := d.offers.erase i,
                        outQueue := d.outQueue ++ [Call.decline i] } h]
      simp [launchTasks, h, List.append_assoc]

/-- Witness for C5: a concrete running driver holding offers 7 and 8. -/
theorem c5_launch_empty_tasks_equals_decline_each_witness :
    exRunning.lifecycle ≠ Lifecycle.Aborted ∧
    launchTasks exRunning [7, 8] [] = List.foldlM declineOffer exRunning [7, 8] :=
  ⟨by decide, c5_launch_empty_tasks_equals_decline_each exRunning (by decide) [7, 8]⟩

/-- C6: when the driver was constructed in implicit-acknowledgement mode,
any call to `acknowledgeStatusUpdate` is a fatal usage error, in every
lifecycle state — never a recoverable condition or a silent no-op. -/
theorem c6_explicit_ack_in_implicit_mode_fatal (d : Driver) (status : Nat)
    (h : d.implicitAcks = true) :
    acknowledgeStatusUpdate d status = Except.error DriverError.fatalUsage := by
  simp [acknowledgeStatusUpdate, h]

/-- Witness for C6: a concrete implicit-acknowledgement driver. -/
theorem c6_explicit_ack_in_implicit_mode_fatal_witness :
    exRunning.implicitAcks = true ∧
    acknowledgeStatusUpdate exRunning 5 = Except.error DriverError.fatalUsage :=
  ⟨rfl, c6_explicit_ack_in_implicit_mode_fatal exRunning 5 rfl⟩

/-- C7: under explicit-acknowledgement mode, a delivered task status
update has a ledger entry; the first `acknowledgeStatusUpdate` with that
status succeeds and removes the entry, and a second call with the same
status is a no-op (it succeeds and changes nothing) rather than an
error. -/
theorem c7_ack_removes_entry_then_idempotent (d : Driver) (u : Nat)
    (himp : d.implicitAcks = false)
    (hlife : d.lifecycle ≠ Lifecycle.Aborted) (hnd : d.ledger.Nodup) :
    u ∈ (deliverStatusUpdate d u).ledger ∧
    ∃ d2 : Driver,
      acknowledgeStatusUpdate (deliverStatusUpdate d u) u = Except.ok d2 ∧
      u ∉ d2.ledger ∧
      acknowledgeStatusUpdate d2 u = Except.ok d2 := by
  by_cases hm : u ∈ d.ledger
  · have hdel : deliverStatusUpdate d u = d := by
      simp [deliverStatusUpdate, hlife, himp, hm]
    refine ⟨by rw [hdel]; exact hm,
      { d with ledger := d.ledger.erase u, outQueue := d.outQueue ++ [Call.ack u] },
      ?_, ?_, ?_⟩
    · rw [hdel]
      simp [acknowledgeStatusUpdate, himp, hlife, hm]
    · exact hnd.not_mem_erase
    · have hne : u ∉ d.ledger.erase u := hnd.not_mem_erase
      simp [acknowledgeStatusUpdate, himp, hlife, hne]
  · have hdel : deliverStatusUpdate d u = { d with ledger := d.ledger ++ [u] } := by
      simp [deliverStatusUpdate, hlife, himp, hm]
    have hmem : u ∈ d.ledger ++ [u] := by simp
    have hnd2 : (d.ledger ++ [u]).Nodup := by
      simp [List.nodup_append, hnd, hm]
    refine ⟨by rw [hdel]; exact hmem,
      { d with ledger := (d.ledger ++ [u]).erase u,
               outQueue := d.outQueue ++ [Call.ack u] },
      ?_, ?_, ?_⟩
    · rw [hdel]
      simp [acknowledgeStatusUpdate, himp, hlife, hmem]
    · exact hnd2.not_mem_erase
    · have hne : u ∉ (d.ledger ++ [u]).erase u := hnd2.not_mem_erase
      simp [acknowledgeStatusUpdate, himp, hlife, hne]

/-- Witness for C7: a concrete explicit-acknowledgement running driver
whose ledger already holds status 5. -/
theorem c7_ack_removes_entry_then_idempotent_witness :
    (exExplicit.implicitAcks = false ∧
     exExplicit.lifecycle ≠ Lifecycle.Aborted ∧
     exExplicit.ledger.Nodup) ∧
    (5 ∈ (deliverStatusUpdate exExplicit 5).ledger ∧
     ∃ d2 : Driver,
       acknowledgeStatusUpdate (deliverStatusUpdate exExplicit 5) 5 = Except.ok d2 ∧
       5 ∉ d2.ledger ∧
       acknowledgeStatusUpdate d2 5 = Except.ok d2) :=
  ⟨⟨rfl, by decide, by decide⟩,
    c7_ack_removes_entry_then_idempotent exExplicit 5 rfl (by decide) (by decide)⟩

/-- C8: whenever the error callback is invoked by event processing, the
driver is already in the Aborted state; the error callback never fires
while the driver is still Running. -/
theorem c8_error_callback_only_after_abort (d : Driver) (e : Event)
    (c : CallbackCall) (hc : c ∈ (processEvent d e).2)
    (hname : c.cbName = "error") :
    c.lifecycleAtCall = Lifecycle.Aborted := by
  by_cases hd : d.lifecycle = Lifecycle.Aborted
  · simp [processEvent, hd] at hc
  · cases e with
    | statusUpdate u =>
        simp [processEvent, hd] at hc
        rw [hc] at hname
        simp at hname
    | offerRescinded i =>
        simp [processEvent, hd] at hc
        rw [hc] at hname
        simp at hname
    | errorEvent m =>
        simp [processEvent, hd] at hc
        rw [hc]

/-- Witness for C8: processing a fatal error event on a concrete running
driver invokes the error callback with the driver already Aborted. -/
theorem c8_error_callback_only_after_abort_witness :
    ((⟨"error", Lifecycle.Aborted⟩ : CallbackCall) ∈
        (processEvent exRunning (Event.errorEvent "boom")).2 ∧
     (⟨"error", Lifecycle.Aborted⟩ : CallbackCall).cbName = "error") ∧
    (⟨"error", Lifecycle.Aborted⟩ : CallbackCall).lifecycleAtCall = Lifecycle.Aborted :=
  ⟨⟨by decide, rfl⟩,
    c8_error_callback_only_after_abort exRunning (Event.errorEvent "boom")
      ⟨"error", Lifecycle.Aborted⟩ (by decide) rfl⟩

/-- C9: `markAgentGone` is idempotent — for every agent id and every
master state, calling it twice with the same agent id is behaviorally
equivalent to calling it once. -/
theorem c9_mark_agent_gone_idempotent (m : MasterState) (agentId : Nat) :
    markAgentGone (markAgentGone m agentId) agentId = markAgentGone m agentId := by
  by_cases h : agentId ∈ m.goneAgents
  · simp [markAgentGone, h]
  · simp [markAgentGone, h]

/-- C10: the module export list `__all__` has exactly six entries, one of
which is the single concatenated string that a missing comma produces, so
neither `OperatorMasterDriver` nor `OperatorMaster` appears as a separate
entry even though both classes are defined in the module. -/
theorem c10_dunder_all_six_entries_with_concatenation :
    dunderAll.length = 6 ∧
    "OperatorMasterDriverOperatorMaster" ∈ dunderAll ∧
    "OperatorMasterDriver" ∉ dunderAll ∧
    "OperatorMaster" ∉ dunderAll ∧
    (findClass "OperatorMasterDriver").isSome = true ∧
    (findClass "OperatorMaster").isSome = true := by
  exact ⟨rfl, by decide, by decide, by decide, by decide, by decide⟩
